import Mathlib

set_option maxHeartbeats 1000000

namespace EmbedAnything

/-!
Shallow embedding of the embedding-orchestration core of the EmbedAnything
repository (src/rust/src/lib.rs, src/rust/src/embeddings/local/bert.rs,
src/python/src/lib.rs, src/python/src/config.rs).

Machine floats are modelled by `ℚ`; a Rust panic or an IEEE division by zero
is modelled by `Option`/an explicit outcome constructor, as noted at each
definition.
-/

/-- Model of Rust `slice::chunks(b+1)`: consecutive sub-slices of size
`b + 1`, the last one possibly shorter.  The chunk size is passed as a
successor so that the recursion is total; `chunksRust` below handles the
zero case. -/
def chunksPos (b : Nat) : List α → List (List α)
  | [] => []
  | x :: xs => ((x :: xs).take (b + 1)) :: chunksPos b (xs.drop b)
termination_by l => l.length
decreasing_by
  simp only [List.length_drop, List.length_cons]
  omega

/-- Model of Rust `slice::chunks(b)` (also rayon `par_chunks(b)`): both
panic when `b = 0`, which is modelled by `none`. -/
def chunksRust (b : Nat) (xs : List α) : Option (List (List α)) :=
  match b with
  | 0 => none
  | Nat.succ k => some (chunksPos k xs)

/-- Model of `BertEmbed::embed` for `BertEmbedder` and `OrtBertEmbedder`
(src/rust/src/embeddings/local/bert.rs, lines 343-375 and 199-253): the
input `textBatch` is split into consecutive sub-batches of size
`batchSize.getD 32` (`batch_size.unwrap_or(32)`), the per-mini-batch model
pipeline `g` (tokenize, forward, pool, normalize) is applied to each
sub-batch, and the per-sub-batch outputs are concatenated in input order
(sequential `for`-loop extension in `BertEmbedder`; order-preserving
`par_chunks ... flat_map ... collect` in `OrtBertEmbedder`).  `none` models
the panic of `chunks(0)`. -/
def bertEmbed (g : List α → List β) (textBatch : List α) (batchSize : Option Nat) :
    Option (List β) :=
  (chunksRust (batchSize.getD 32) textBatch).map (fun cs => (cs.map g).flatten)

theorem chunksPos_join (b : Nat) (xs : List α) : (chunksPos b xs).flatten = xs := by
  induction xs using chunksPos.induct b with
  | case1 => simp [chunksPos]
  | case2 x xs ih =>
      rw [chunksPos, List.flatten_cons, ih]
      simp [List.take_cons, List.take_append_drop]

theorem chunksPos_map_join (f : α → β) (b : Nat) (xs : List α) :
    ((chunksPos b xs).map (fun c => c.map f)).flatten = xs.map f := by
  rw [← List.map_flatten, chunksPos_join]

theorem bertEmbed_pointwise (g : List α → List β) (f : α → β)
    (hg : ∀ c, g c = c.map f) (xs : List α) (b : Nat) (hb : 0 < b) :
    bertEmbed g xs (some b) = some (xs.map f) := by
  obtain ⟨k, rfl⟩ : ∃ k, b = k + 1 := ⟨b - 1, by omega⟩
  unfold bertEmbed chunksRust
  simp only [Option.getD_some, Option.map_some']
  congr 1
  have : (chunksPos k xs).map g = (chunksPos k xs).map (fun c => c.map f) :=
    List.map_congr_left (fun c _ => hg c)
  rw [this, chunksPos_map_join]

/-- Componentwise sum of a list of vectors of dimension `dim`, starting from
the zero vector (models `sum_axis` over the token axis). -/
def vecSum (dim : Nat) (tokens : List (List ℚ)) : List ℚ :=
  tokens.foldl (fun acc v => List.zipWith (· + ·) acc v) (List.replicate dim 0)

/-- Modelled from the spec: the `Pooling::pool` implementation
(`embeddings/local/pooling.rs`) is not among the sources; only its call site
in `OrtBertEmbedder::embed` (bert.rs line 238) is.  That call site passes
`pool` nothing but the model output `ModelOutput::Array(embeddings)` — no
attention mask — so the `Mean` strategy there can only be the plain mean over
the token axis: sum the per-token vectors of one batch row and divide by the
row's full sequence length. -/
def meanPoolRow (dim : Nat) (tokens : List (List ℚ)) : List ℚ :=
  (vecSum dim tokens).map (fun s => s / (tokens.length : ℚ))

/-- Mean pooling of a whole batch (one row per batch item), as applied by
`OrtBertEmbedder::embed` to the model output. -/
def meanPool (dim : Nat) (out : List (List (List ℚ))) : List (List ℚ) :=
  out.map (meanPoolRow dim)

/-- Modelled from the spec: attention-masked mean pooling as §4.2 describes it
("elementwise-zero out padded token positions via the mask, sum over the token
axis, divide by the count of unmasked tokens per row").  The mask holds one
0/1 weight per token position. -/
def maskedMeanPoolRow (dim : Nat) (mask : List ℚ) (tokens : List (List ℚ)) :
    List ℚ :=
  let masked := List.zipWith (fun m v => v.map (fun x => m * x)) mask tokens
  (vecSum dim masked).map (fun s => s / mask.sum)

/-- Model of `Array2::ones(input_ids.raw_dim())` in `OrtBertEmbedder::embed`
(bert.rs line 212): the attention mask the code builds is all ones,
irrespective of which token positions are padding. -/
def ortAttentionMask (seqLen : Nat) : List ℚ :=
  List.replicate seqLen 1

/-- Sum of squares of a vector's components, as computed at bert.rs lines
240 and 497 (`mapv(|x| x * x).sum_axis(Axis(1))`). -/
def sumSq (row : List ℚ) : ℚ :=
  (row.map (fun x => x * x)).sum

/-- Model of the row normalization at bert.rs lines 240-241 (and 497-498):
divide every component of the row by `sqrtFn (sumSq row)`, where `sqrtFn`
models `f32::sqrt`.  The code applies no epsilon: when the computed norm is
zero every division is a division by zero, whose IEEE result is not a finite
number; that outcome is modelled by `none`. -/
def l2NormalizeRow (sqrtFn : ℚ → ℚ) (row : List ℚ) : Option (List ℚ) :=
  if sqrtFn (sumSq row) = 0 then none
  else some (row.map (fun x => x / sqrtFn (sumSq row)))

/-- The backend variants dispatched over in `src/rust/src/lib.rs`
(`Embeder::OpenAI | Cohere | Jina | Bert | Clip`). -/
inductive Embeder
  | openai
  | cohere
  | jina
  | bert
  | clip
deriving DecidableEq

/-- Model of the result routing of `embed_file` (lib.rs lines 117-127)
composed with `emb_text` (lines 317-334) for a successful call: the four
text variants call `emb_text`, which sends the embeddings to the adapter
and yields `None` when an adapter is supplied and yields
`Some(embeddings)` otherwise; the `Clip` arm returns
`Some(vec![emb_image(..)])` without ever consulting the adapter. -/
def embed_file_route (e : Embeder) (textData : List δ) (imageData : δ)
    (adapterPresent : Bool) : Option (List δ) :=
  match e with
  | .clip => some [imageData]
  | _ => if adapterPresent then none else some textData

/-- Model of the result routing at the end of `embed_webpage` (lib.rs lines
253-258): with an adapter the embeddings are passed to it and `None` is
returned, otherwise `Some(embeddings)`. -/
def embed_webpage_route (data : List δ) (adapterPresent : Bool) :
    Option (List δ) :=
  if adapterPresent then none else some data

/-- Model of `emb_text`'s use of the backend (lib.rs lines 317-331): the
backend call's `Result` is `.unwrap()`ed, so a backend error becomes a panic
that aborts the whole computation; the panic is modelled by propagating
`Except.error`.  On success the file's `EmbedData` list is produced. -/
def emb_text_backend (backendOut : Except ε (List δ)) : Except ε (List δ) :=
  backendOut

/-- Model of `emb_directory` in collect mode (lib.rs lines 282-298): every
discovered file is driven through `emb_text` and the per-file `EmbedData`
lists are concatenated.  A panic inside any file's `emb_text` (the
`.unwrap()` on the backend call) unwinds through the executor and aborts the
run, modelled by `Except.error`.  The code's `buffer_unordered` does not fix
the cross-file concatenation order; this model uses discovery order, which
the claims over this function do not depend on. -/
def emb_directory_collect (run : φ → Except ε (List δ)) :
    List φ → Except ε (List δ)
  | [] => Except.ok []
  | f :: fs =>
      match emb_text_backend (run f) with
      | .error e => Except.error e
      | .ok d =>
          match emb_directory_collect run fs with
          | .error e => Except.error e
          | .ok rest => Except.ok (d ++ rest)

/-- The error kinds the host-binding `embed_file` can surface
(src/python/src/lib.rs lines 235-291): a file-not-found error or a
value error wrapping anything else. -/
inductive PyError
  | fileNotFound (msg : String)
  | valueError (msg : String)
deriving DecidableEq

/-- Model of the host-binding `embed_file` (src/python/src/lib.rs lines
235-291): before constructing the adapter callback or dispatching to any
backend it checks `Path::new(file_name).exists()` and returns a
file-not-found error when the check fails; only then does it run the core
`embed_file`, modelled here by `embed_file_route` for the successful case.
`cfg` stands for the (arbitrary) configuration, which the existence check
never consults. -/
def py_embed_file (fileName : String) (pathExists : Bool) (e : Embeder)
    (cfg : γ) (textData : List δ) (imageData : δ) (adapterPresent : Bool) :
    Except PyError (Option (List δ)) :=
  if pathExists = false then
    Except.error (PyError.fileNotFound ("File not found: " ++ fileName))
  else
    Except.ok (embed_file_route e textData imageData adapterPresent)

/-- The error outcomes of `embed_webpage` (lib.rs lines 228-259). -/
inductive WebpageError
  | processFailed (msg : String)
  | clipUnsupported
  | backendFailed (msg : String)
deriving DecidableEq

/-- Model of `embed_webpage` (lib.rs lines 228-259): the page is fetched and
processed FIRST (`website_processor.process_website(url)?`, line 239); only
when that succeeds is the backend checked, with the `Clip` variant rejected
(`Clip model does not support webpage embedding`, lines 241-243); then the
page is embedded and routed through the adapter. -/
def embed_webpage_model (fetch : Except String π) (e : Embeder)
    (embedRun : π → Except String (List δ)) (adapterPresent : Bool) :
    Except WebpageError (Option (List δ)) :=
  match fetch with
  | .error msg => Except.error (WebpageError.processFailed msg)
  | .ok page =>
      if e = Embeder.clip then Except.error WebpageError.clipUnsupported
      else
        match embedRun page with
        | .error msg => Except.error (WebpageError.backendFailed msg)
        | .ok data => Except.ok (embed_webpage_route data adapterPresent)

/-- The splitting strategies of `embed_anything::text_loader` as used by the
host-binding config (src/python/src/config.rs). -/
inductive SplittingStrategy
  | sentence
  | semantic
deriving DecidableEq

/-- The fully resolved option set built by `TextEmbedConfig::new`
(src/python/src/config.rs lines 40-48). -/
structure TextEmbedConfigRec where
  chunkSize : Nat
  batchSize : Nat
  bufferSize : Nat
  overlap : Option ℚ
  strategy : SplittingStrategy
  semanticEncoderPresent : Bool
  useOcr : Bool
deriving DecidableEq

/-- Possible outcomes of constructing a config.  `TextEmbedConfig::new` is a
`#[new]` constructor returning `Self`, so it can only produce a value or
panic; `configError` is included to state the spec's predicted outcome of a
typed error return, which the code has no way to produce. -/
inductive ConfigOutcome
  | ok (cfg : TextEmbedConfigRec)
  | configError (msg : String)
  | panicked (msg : String)
deriving DecidableEq

/-- Whether the outcome is a typed configuration-error return. -/
def ConfigOutcome.isConfigError : ConfigOutcome → Bool
  | .configError _ => true
  | _ => false

/-- Model of `TextEmbedConfig::new` (src/python/src/config.rs lines 18-49):
the strategy string parses to `Sentence`, `Semantic` or `None` (any other
string); if the parsed strategy is `Semantic` and no semantic encoder was
supplied the constructor panics
(`panic!("Semantic encoder is required when using Semantic splitting strategy")`);
otherwise every option is resolved with its default (`chunk_size` 256,
`batch_size` 32, `buffer_size` 100, strategy `Sentence`, `use_ocr` false). -/
def textEmbedConfigNew (chunkSize batchSize bufferSize : Option Nat)
    (overlap : Option ℚ) (splitting : Option String)
    (semanticEncoderPresent : Bool) (useOcr : Option Bool) : ConfigOutcome :=
  let strategy : Option SplittingStrategy :=
    match splitting with
    | some s =>
        if s = "sentence" then some SplittingStrategy.sentence
        else if s = "semantic" then some SplittingStrategy.semantic
        else none
    | none => none
  if strategy = some SplittingStrategy.semantic ∧ semanticEncoderPresent = false then
    ConfigOutcome.panicked
      "Semantic encoder is required when using Semantic splitting strategy"
  else
    ConfigOutcome.ok
      { chunkSize := chunkSize.getD 256
        batchSize := batchSize.getD 32
        bufferSize := bufferSize.getD 100
        overlap := overlap
        strategy := strategy.getD SplittingStrategy.sentence
        semanticEncoderPresent := semanticEncoderPresent
        useOcr := useOcr.getD false }

/-- The two optional lengths read from `tokenizer_config.json`
(bert.rs lines 41-47, `TokenizerConfig`). -/
structure TokenizerConfigRec where
  maxLength : Option Nat
  modelMaxLength : Option Nat
deriving DecidableEq

/-- The model configuration field used by `BertEmbedder::new`
(bert.rs line 313, `config.max_position_embeddings`). -/
structure BertConfigRec where
  maxPositionEmbeddings : Nat
deriving DecidableEq

/-- Model of the truncation max-length computation in `OrtBertEmbedder::new`
(bert.rs lines 146-155, identically in `OrtSparseBertEmbedder::new` lines
432-441): the minimum of `max_length` and `model_max_length` when both are
present, whichever is present when only one is, and 128 when neither is. -/
def ortMaxLength (tc : TokenizerConfigRec) : Nat :=
  match tc.maxLength, tc.modelMaxLength with
  | some a, some b => min a b
  | some a, none => a
  | none, some b => b
  | none, none => 128

/-- Model of the truncation max-length set by `BertEmbedder::new` (bert.rs
lines 311-315): unconditionally `config.max_position_embeddings`; the
tokenizer configuration is never read on this path. -/
def bertTruncationMaxLength (cfg : BertConfigRec) : Nat :=
  cfg.maxPositionEmbeddings

theorem sumSq_nonneg (row : List ℚ) : 0 ≤ sumSq row := by
  induction row with
  | nil => simp [sumSq]
  | cons x xs ih =>
      have hx : 0 ≤ x * x := mul_self_nonneg x
      simp only [sumSq, List.map_cons, List.sum_cons]
      have ih2 : 0 ≤ sumSq xs := ih
      simp only [sumSq] at ih2
      linarith

theorem sumSq_eq_zero_iff (row : List ℚ) : sumSq row = 0 ↔ ∀ x ∈ row, x = 0 := by
  induction row with
  | nil => simp [sumSq]
  | cons x xs ih =>
      have hx : 0 ≤ x * x := mul_self_nonneg x
      have hxs : 0 ≤ sumSq xs := sumSq_nonneg xs
      have hstep : sumSq (x :: xs) = x * x + sumSq xs := by
        simp [sumSq]
      rw [hstep]
      constructor
      · intro h
        have h1 : x * x = 0 := by linarith
        have h2 : sumSq xs = 0 := by linarith
        intro y hy
        rcases List.mem_cons.mp hy with rfl | hy2
        · exact mul_self_eq_zero.mp h1
        · exact (ih.mp h2) y hy2
      · intro h
        have h1 : x = 0 := h x (List.mem_cons_self x xs)
        have h2 : sumSq xs = 0 :=
          ih.mpr (fun y hy => h y (List.mem_cons_of_mem x hy))
        rw [h1, h2]
        ring

/-- C1: for every backend with the `BertEmbed::embed` batching wrapper, every
input batch and every positive batch size (default 32 when absent), `embed`
splits the input into consecutive sub-batches, embeds each, and concatenates
in input order; assuming the per-mini-batch model pipeline `g` embeds each
string independently of its sub-batch companions (`g c = c.map f`), the
output equals `xs.map f` for every batch size, so outputs for two batch
sizes `b1`, `b2` coincide and the i-th output is `f` of the i-th input. -/
theorem C1_batching_preserves_order_and_result (g : List α → List β) (f : α → β)
    (hg : ∀ c, g c = c.map f) (xs : List α) (b1 b2 : Nat)
    (h1 : 0 < b1) (h2 : 0 < b2) :
    bertEmbed g xs (some b1) = some (xs.map f) ∧
    bertEmbed g xs (some b1) = bertEmbed g xs (some b2) ∧
    bertEmbed g xs none = some (xs.map f) := by
  have e1 := bertEmbed_pointwise g f hg xs b1 h1
  have e2 := bertEmbed_pointwise g f hg xs b2 h2
  have e3 : bertEmbed g xs none = bertEmbed g xs (some 32) := rfl
  exact ⟨e1, by rw [e1, e2], by rw [e3, bertEmbed_pointwise g f hg xs 32 (by omega)]⟩

/-- Witness for C1 at the input `[1, 2, 3]` with the pointwise model
`fun x => x + 1` and batch sizes 2 and 5. -/
theorem C1_batching_preserves_order_and_result_witness :
    bertEmbed (fun c : List Nat => c.map (fun x => x + 1)) [1, 2, 3] (some 2)
      = some [2, 3, 4] ∧
    bertEmbed (fun c : List Nat => c.map (fun x => x + 1)) [1, 2, 3] (some 2)
      = bertEmbed (fun c : List Nat => c.map (fun x => x + 1)) [1, 2, 3] (some 5) := by
  have h := C1_batching_preserves_order_and_result
    (fun c : List Nat => c.map (fun x => x + 1)) (fun x => x + 1)
    (fun c => rfl) [1, 2, 3] 2 5 (by decide) (by decide)
  exact ⟨h.1, h.2.1⟩

/-- C10: for every backend, `embed` with `batch_size = Some(0)` on a
non-empty batch panics — `slice::chunks(0)` / `par_chunks(0)` panic, modelled
by `none` — while the absent batch size falls back to 32 and succeeds; a
positive batch size is a genuine precondition, not a case handled by
falling back to the default. -/
theorem C10_zero_batch_size_panics (g : List α → List β) (xs : List α)
    (h : xs ≠ []) :
    bertEmbed g xs (some 0) = none ∧ (bertEmbed g xs none).isSome = true := by
  constructor
  · rfl
  · simp [bertEmbed, chunksRust]

/-- Witness for C10 at the non-empty batch `[5]`. -/
theorem C10_zero_batch_size_panics_witness :
    bertEmbed (fun c : List Nat => c) [5] (some 0) = none ∧
    (bertEmbed (fun c : List Nat => c) [5] none).isSome = true :=
  C10_zero_batch_size_panics (fun c => c) [5] (by decide)

/-- C2: evaluation of the code's pooling at the failing input.  For a
mini-batch row whose model output is `[[1], [3]]` where the second token is
padding (true mask `[1, 0]`), the pooling reached from
`OrtBertEmbedder::embed` produces the unmasked mean `2` — dividing by the
full sequence length — while the attention-masked mean the claim describes
is `1`; the code's result coincides with the masked mean only under the
all-ones mask the code itself constructs at bert.rs line 212. -/
theorem C2_mean_pool_ignores_padding :
    meanPoolRow 1 [[1], [3]] = [2] ∧
    maskedMeanPoolRow 1 [1, 0] [[1], [3]] = [1] ∧
    meanPoolRow 1 [[1], [3]] = maskedMeanPoolRow 1 (ortAttentionMask 2) [[1], [3]] := by
  refine ⟨?_, ?_, ?_⟩ <;>
    norm_num [meanPoolRow, maskedMeanPoolRow, vecSum, ortAttentionMask,
      List.replicate_succ]

/-- C3 counterexample: the claim says normalization never divides by zero
thanks to a minimum-epsilon rule; but at bert.rs lines 240-241 the row is
divided by the raw norm with no epsilon, so the all-zero pooled row (norm 0)
hits a division by zero, modelled by `none`. -/
theorem C3_zero_norm_divides_by_zero :
    l2NormalizeRow Rat.sqrt [0, 0] = none := by
  have h0 : sumSq [0, 0] = (0 : ℚ) := by simp [sumSq]
  have hsq : Rat.sqrt 0 = 0 := by
    simp [Rat.sqrt]
  simp [l2NormalizeRow, h0, hsq]

/-- C3 amended: the code divides each pooled row by its raw Euclidean norm
with no epsilon; for any square-root model that vanishes only at zero on
nonnegative inputs (true of IEEE `sqrt`), the normalization divides by zero
exactly on the all-zero row and succeeds on every other row. -/
theorem C3_normalization_no_epsilon (sqrtFn : ℚ → ℚ)
    (hs : ∀ q, 0 ≤ q → (sqrtFn q = 0 ↔ q = 0)) (row : List ℚ) :
    l2NormalizeRow sqrtFn row = none ↔ ∀ x ∈ row, x = 0 := by
  by_cases hn : sqrtFn (sumSq row) = 0
  · have hz : sumSq row = 0 := (hs (sumSq row) (sumSq_nonneg row)).mp hn
    simp only [l2NormalizeRow, if_pos hn]
    constructor
    · intro _
      exact (sumSq_eq_zero_iff row).mp hz
    · intro _
      trivial
  · simp only [l2NormalizeRow, if_neg hn]
    constructor
    · intro h
      simp at h
    · intro h
      have hz : sumSq row = 0 := (sumSq_eq_zero_iff row).mpr h
      exact absurd ((hs (sumSq row) (sumSq_nonneg row)).mpr hz) hn

/-- Witness for the C3 amended theorem with the identity as square-root
model, at the all-zero row. -/
theorem C3_normalization_no_epsilon_witness :
    l2NormalizeRow (fun q : ℚ => q) [0, 0] = none :=
  (C3_normalization_no_epsilon (fun q => q) (fun q _ => Iff.rfl) [0, 0]).mpr
    (by decide)

/-- C4 counterexample: the claim predicts that every backend variant returns
`None` when a sink/adapter is supplied; the `Clip` arm of `embed_file`
(lib.rs line 126) ignores the adapter and returns
`Some(vec![emb_image(..)])`. -/
theorem C4_clip_ignores_adapter :
    embed_file_route Embeder.clip ([1] : List Nat) 7 true = some [7] ∧
    embed_file_route Embeder.clip ([1] : List Nat) 7 true ≠ none := by
  exact ⟨rfl, by simp [embed_file_route]⟩

/-- C4 amended: for the four text variants a successful `embed_file` returns
`None` exactly when an adapter is supplied and the collected sequence
otherwise, and `embed_webpage` routes the same way; the `Clip` variant
returns `Some` of the single image embedding whether or not an adapter is
supplied. -/
theorem C4_sink_routing (e : Embeder) (textData : List δ) (imageData : δ)
    (data : List δ) :
    embed_file_route e textData imageData true
      = (if e = Embeder.clip then some [imageData] else none) ∧
    embed_file_route e textData imageData false
      = (if e = Embeder.clip then some [imageData] else some textData) ∧
    embed_webpage_route data true = none ∧
    embed_webpage_route data false = some data := by
  cases e <;> simp [embed_file_route, embed_webpage_route]

/-- C5: during directory orchestration in collect mode, if the backend call
for some file fails, the whole run aborts with an error (the `.unwrap()`
panic), so no success value is ever returned; and whenever the run does
return a collected result, every file's backend call succeeded and the
result is exactly the concatenation of every file's `EmbedData` — no file's
chunks are silently dropped. -/
theorem C5_failure_aborts_run (run : φ → Except ε (List δ)) (files : List φ) :
    ((∃ f ∈ files, ∃ e, run f = Except.error e) →
      ∃ e2, emb_directory_collect run files = Except.error e2) ∧
    (∀ l, emb_directory_collect run files = Except.ok l →
      (∀ f ∈ files, ∃ d, run f = Except.ok d) ∧
      l = (files.map (fun f => (run f).toOption.getD [])).flatten) := by
  induction files with
  | nil =>
      constructor
      · rintro ⟨f, hf, -⟩
        exact absurd hf (List.not_mem_nil f)
      · intro l hl
        refine ⟨fun f hf => absurd hf (List.not_mem_nil f), ?_⟩
        simpa [emb_directory_collect] using hl.symm
  | cons f fs ih =>
      constructor
      · rintro ⟨f2, hf2, e, he⟩
        rcases List.mem_cons.mp hf2 with rfl | hf3
        · exact ⟨e, by simp [emb_directory_collect, emb_text_backend, he]⟩
        · cases hrf : run f with
          | error e3 =>
              exact ⟨e3, by simp [emb_directory_collect, emb_text_backend, hrf]⟩
          | ok d =>
              obtain ⟨e2, he2⟩ := ih.1 ⟨f2, hf3, e, he⟩
              exact ⟨e2, by simp [emb_directory_collect, emb_text_backend, hrf, he2]⟩
      · intro l hl
        cases hrf : run f with
        | error e3 =>
            rw [emb_directory_collect] at hl
            simp [emb_text_backend, hrf] at hl
        | ok d =>
            rw [emb_directory_collect] at hl
            simp only [emb_text_backend, hrf] at hl
            cases hrest : emb_directory_collect run fs with
            | error e4 => simp [hrest] at hl
            | ok rest =>
                simp only [hrest] at hl
                obtain ⟨hall, hflat⟩ := ih.2 rest hrest
                refine ⟨?_, ?_⟩
                · intro f2 hf2
                  rcases List.mem_cons.mp hf2 with rfl | hf3
                  · exact ⟨d, hrf⟩
                  · exact hall f2 hf3
                · cases hl
                  simp [hrf, hflat, Except.toOption]

/-- Witness for C5: a two-file run where the second file's backend call
fails aborts, and a two-file run where both succeed collects both files'
chunks in full. -/
theorem C5_failure_aborts_run_witness :
    (∃ e2, emb_directory_collect
        (fun f : Nat => if f = 1 then Except.error "backend call failed"
          else Except.ok [f, f + 10]) [0, 1] = Except.error e2) ∧
    ((∀ f ∈ [0, 1], ∃ d, (fun f : Nat => Except.ok (ε := String) [f, f + 10]) f
        = Except.ok d) ∧
      ([0, 10, 1, 11] : List Nat)
        = (([0, 1] : List Nat).map
            (fun f => ((fun f : Nat => Except.ok (ε := String) [f, f + 10]) f
              |>.toOption.getD []))).flatten) := by
  constructor
  · exact (C5_failure_aborts_run
      (fun f : Nat => if f = 1 then Except.error "backend call failed"
        else Except.ok [f, f + 10]) [0, 1]).1
      ⟨1, by decide, "backend call failed", by simp⟩
  · exact (C5_failure_aborts_run
      (fun f : Nat => Except.ok (ε := String) [f, f + 10]) [0, 1]).2
      [0, 10, 1, 11] rfl

/-- C6: the host-binding `embed_file` checks path existence before anything
else, so for every nonexistent path it fails with the file-not-found error
kind — not a panic, not an empty result, not another error kind — for every
backend, configuration, adapter and downstream data. -/
theorem C6_missing_file_not_found (fileName : String) (e : Embeder) (cfg : γ)
    (textData : List δ) (imageData : δ) (adapterPresent : Bool) :
    py_embed_file fileName false e cfg textData imageData adapterPresent
      = Except.error (PyError.fileNotFound ("File not found: " ++ fileName)) :=
  rfl

/-- C7 counterexample: the claim predicts that `embed_webpage` with the
`Clip` backend fails with the model-selection error for EVERY url; but the
page fetch (lib.rs line 239) runs before the `Clip` check (lines 241-243),
so a url whose fetch fails yields the fetch error instead. -/
theorem C7_fetch_error_precedes_clip_check :
    embed_webpage_model (Except.error "fetch failed") Embeder.clip
        (fun _ : Unit => Except.ok ([] : List Nat)) false
      = Except.error (WebpageError.processFailed "fetch failed") ∧
    embed_webpage_model (Except.error "fetch failed") Embeder.clip
        (fun _ : Unit => Except.ok ([] : List Nat)) false
      ≠ Except.error WebpageError.clipUnsupported := by
  exact ⟨rfl, by simp [embed_webpage_model]⟩

/-- C7 amended: whenever the page fetch succeeds, `embed_webpage` with the
`Clip` backend fails with the model-selection error; and with the `Clip`
backend it never returns embeddings, whatever the fetch outcome. -/
theorem C7_clip_webpage_rejected (fetch : Except String π)
    (embedRun : π → Except String (List δ)) (adapterPresent : Bool) :
    (∀ page, fetch = Except.ok page →
      embed_webpage_model fetch Embeder.clip embedRun adapterPresent
        = Except.error WebpageError.clipUnsupported) ∧
    (∀ r, embed_webpage_model fetch Embeder.clip embedRun adapterPresent
        ≠ Except.ok r) := by
  cases fetch with
  | error msg =>
      constructor
      · intro page hp
        cases hp
      · intro r
        simp [embed_webpage_model]
  | ok page =>
      constructor
      · intro p2 hp
        simp [embed_webpage_model]
      · intro r
        simp [embed_webpage_model]

/-- Witness for C7 at a successful fetch of a trivial page. -/
theorem C7_clip_webpage_rejected_witness :
    embed_webpage_model (Except.ok ()) Embeder.clip
        (fun _ : Unit => Except.ok ([] : List Nat)) false
      = Except.error WebpageError.clipUnsupported :=
  (C7_clip_webpage_rejected (Except.ok ())
    (fun _ : Unit => Except.ok ([] : List Nat)) false).1 () rfl

/-- C8 counterexample: constructing the config with the `Semantic` strategy
and no semantic encoder does not produce a typed configuration-error
return — the constructor panics (config.rs line 38). -/
theorem C8_semantic_without_encoder_panics :
    textEmbedConfigNew none none none none (some "semantic") false none
      = ConfigOutcome.panicked
          "Semantic encoder is required when using Semantic splitting strategy" ∧
    (textEmbedConfigNew none none none none
        (some "semantic") false none).isConfigError = false := by
  constructor
  · rfl
  · rfl

/-- C8 amended: for every combination of the other parameters, constructing
with the `Semantic` strategy and no semantic encoder panics with the fixed
message — it neither falls back silently to another strategy nor returns a
typed `ConfigurationError` value (the `#[new]` constructor returns `Self`
and has no error channel). -/
theorem C8_semantic_requires_encoder (chunkSize batchSize bufferSize : Option Nat)
    (overlap : Option ℚ) (useOcr : Option Bool) :
    textEmbedConfigNew chunkSize batchSize bufferSize overlap
        (some "semantic") false useOcr
      = ConfigOutcome.panicked
          "Semantic encoder is required when using Semantic splitting strategy" := by
  simp [textEmbedConfigNew]

/-- C9 counterexample: the claim predicts the min-of-both truncation rule
for every local tensor-inference construction; `BertEmbedder::new` (bert.rs
line 313) instead sets the truncation max-length to
`config.max_position_embeddings` unconditionally, so with a tokenizer max
length of 10 and a model max position of 512 the code sets 512 where the
claim demands 10. -/
theorem C9_bert_ignores_tokenizer_max :
    bertTruncationMaxLength ⟨512⟩ = 512 ∧
    ortMaxLength ⟨some 10, some 512⟩ = 10 ∧
    bertTruncationMaxLength ⟨512⟩ ≠ ortMaxLength ⟨some 10, some 512⟩ := by
  refine ⟨rfl, rfl, ?_⟩
  decide

/-- C9 amended: the ONNX constructors (`OrtBertEmbedder::new`,
`OrtSparseBertEmbedder::new`) derive the truncation max-length as the
minimum of the tokenizer config's `max_length` and `model_max_length` when
both are present, whichever is present when only one is, and 128 when
neither is; the local tensor variant `BertEmbedder::new` instead always uses
the model config's `max_position_embeddings`. -/
theorem C9_truncation_rules (a b : Nat) (cfg : BertConfigRec) :
    ortMaxLength ⟨some a, some b⟩ = min a b ∧
    ortMaxLength ⟨some a, none⟩ = a ∧
    ortMaxLength ⟨none, some b⟩ = b ∧
    ortMaxLength ⟨none, none⟩ = 128 ∧
    bertTruncationMaxLength cfg = cfg.maxPositionEmbeddings :=
  ⟨rfl, rfl, rfl, rfl, rfl⟩

end EmbedAnything
